import Mathlib

/-!
Verification of the TeachMeFinance chatbot client (src/chatbot.py).

The development shallowly embeds the three functions of the source:
`chat_completion_ollama` (the request/response bridge), `chat` (the
interactive REPL loop) and `ask` (the single-shot command).  The network
is modelled as an oracle mapping the issued HTTP request to an outcome;
the bridge additionally returns the list of requests it issued (so that
"exactly one call, no retry" is expressible) and the messages list after
the call (so that absence of mutation is expressible).  The dynamic
semantics of the Python operations the extraction step relies on
(membership `in`, subscript `[...]`, `.strip()`, `str(...)`) are embedded
faithfully over a JSON value type, including the `TypeError` and
`AttributeError` they raise on values of the wrong shape.
-/

namespace TMF

/-- A parsed JSON value, as produced by `resp.json()`.  Objects model
Python dicts via association lists assumed to have pairwise distinct keys
(a Python dict cannot hold duplicate keys). -/
inductive Json where
  | null : Json
  | bool (b : Bool) : Json
  | num (n : Int) : Json
  | str (s : String) : Json
  | arr (elems : List Json) : Json
  | obj (fields : List (String × Json)) : Json

/-- The Python type name of a parsed-JSON value, as it appears in
`TypeError` / `AttributeError` messages. -/
def pyTypeName : Json → String
  | .null => "NoneType"
  | .bool _ => "bool"
  | .num _ => "int"
  | .str _ => "str"
  | .arr _ => "list"
  | .obj _ => "dict"

/-- Python exceptions the extraction step can raise besides the two
`RuntimeError`s.  Each carries the Python type name of the offending
value (the full Python message also quotes the operation; the claims
only distinguish the exception kind). -/
inductive PyErr where
  | typeError (typeName : String) : PyErr
  | attributeError (typeName : String) : PyErr
  | keyError (key : String) : PyErr
deriving DecidableEq, Repr

/-- The ASCII whitespace characters Python `str.strip()` removes
(exotic Unicode whitespace is not modelled; no claim exercises it). -/
def isPyWhitespace (c : Char) : Bool :=
  c = ' ' ∨ c = '\t' ∨ c = '\n' ∨ c = '\r' ∨ c = '\x0b' ∨ c = '\x0c'

/-- Semantics of Python `s.strip()` on a string: remove leading and
trailing whitespace. -/
def strip (s : String) : String :=
  String.mk (((s.data.dropWhile isPyWhitespace).reverse.dropWhile
    isPyWhitespace).reverse)

/-- Semantics of Python `s.lower()` (ASCII case folding). -/
def lower (s : String) : String :=
  String.mk (s.data.map Char.toLower)

/-- Substring test, the semantics of Python `needle in haystack` on
strings. -/
def strContains (haystack needle : String) : Bool :=
  haystack.toList.tails.any (fun t => needle.toList.isPrefixOf t)

/-- Semantics of Python `needle in v` for a string `needle` and a
parsed-JSON value `v`: key membership on dicts, element equality on
lists, substring on strings, and `TypeError: argument of type ... is not
iterable` on `None`, booleans and numbers. -/
def pyContains (needle : String) : Json → Except PyErr Bool
  | .obj fields => .ok (fields.any (fun p => p.1 == needle))
  | .arr elems =>
    .ok (elems.any (fun e => match e with | .str s => s == needle | _ => false))
  | .str s => .ok (strContains s needle)
  | v => .error (.typeError (pyTypeName v))

/-- Semantics of Python `v[key]` for a string `key`: dict lookup
(`KeyError` when absent), `TypeError` on every other value. -/
def pyIndex (v : Json) (key : String) : Except PyErr Json :=
  match v with
  | .obj fields =>
    match fields.lookup key with
    | some w => .ok w
    | none => .error (.keyError key)
  | w => .error (.typeError (pyTypeName w))

/-- Semantics of Python `v.strip()`: trims surrounding whitespace of a
string, raises `AttributeError: ... object has no attribute ...` on any
non-string. -/
def pyStrip : Json → Except PyErr String
  | .str s => .ok (strip s)
  | v => .error (.attributeError (pyTypeName v))

/-- Python `repr` of a parsed-JSON value (escape sequences inside string
atoms are not modelled; no claim exercises them). -/
def pyRepr : Json → String
  | .null => "None"
  | .bool true => "True"
  | .bool false => "False"
  | .num n => toString n
  | .str s => "\x27" ++ s ++ "\x27"
  | .arr elems =>
    "[" ++ String.intercalate ", " (elems.attach.map (fun e => pyRepr e.1)) ++ "]"
  | .obj fields =>
    "\x7b" ++
      String.intercalate ", "
        (fields.attach.map (fun p => "\x27" ++ p.1.1 ++ "\x27: " ++ pyRepr p.1.2)) ++
    "\x7d"
decreasing_by
  · have h := List.sizeOf_lt_of_mem e.2
    simp only [Json.arr.sizeOf_spec] at *
    omega
  · have h := List.sizeOf_lt_of_mem p.2
    have h2 : sizeOf p.1.2 < sizeOf p.1 := by
      obtain ⟨⟨k, v⟩, hm⟩ := p
      simp only [Prod.mk.sizeOf_spec]
      omega
    simp only [Json.obj.sizeOf_spec] at *
    omega

/-- Semantics of Python `str(v)` for a parsed-JSON value: identity on
strings, `repr`-like rendering otherwise.  Total: `str` raises nothing
on these values. -/
def pyStr : Json → String
  | .str s => s
  | v => pyRepr v

/-- One chat message, a Python dict of the shape
`\x7b"role": ..., "content": ...\x7d`. -/
structure Message where
  role : String
  content : String
deriving DecidableEq, Repr

/-- The `options` sub-object of the request payload (chatbot.py lines
38-41).  `temperature` is a Python float, embedded as a rational; the
code performs no arithmetic on it. -/
structure ChatOptions where
  temperature : Rat
  num_predict : Int
deriving DecidableEq, Repr

/-- The JSON payload composed at chatbot.py lines 34-42. -/
structure ChatPayload where
  model : String
  messages : List Message
  stream : Bool
  options : ChatOptions
deriving DecidableEq, Repr

/-- One outbound HTTP POST, as issued by `requests.post(url, json=payload,
timeout=120)` at chatbot.py line 44. -/
structure HttpRequest where
  url : String
  payload : ChatPayload
  timeout : Nat
deriving DecidableEq, Repr

/-- Outcome of the single `requests.post` call: either a
`requests.RequestException` raised in flight (connection error, timeout),
or a response with a status code and a parsed JSON body. -/
inductive HttpOutcome where
  | exn (cause : String) : HttpOutcome
  | response (status : Nat) (body : Json) : HttpOutcome

/-- The ways `chat_completion_ollama` can fail: the two `RuntimeError`s
it raises itself (line 47 wrapping a `RequestException`; line 55 for an
unrecognized schema), and unhandled Python exceptions escaping from the
extraction expressions at lines 50-54. -/
inductive BridgeErr where
  | transport (cause : String) : BridgeErr
  | schema : BridgeErr
  | pyError (e : PyErr) : BridgeErr
deriving DecidableEq, Repr

/-- `resp.raise_for_status()` raises an `HTTPError` (a
`RequestException`) exactly for 4xx and 5xx status codes; the returned
string is the cause it carries. -/
def raise_for_status (status : Nat) : Option String :=
  if 400 ≤ status ∧ status < 600 then some ("HTTP error " ++ toString status)
  else none

/-- The extraction step, chatbot.py lines 50-55, with Python dynamic
semantics: evaluate `"message" in data`; if true, `"content" in
data["message"]`; if both hold return `data["message"]["content"].strip()`;
otherwise if `"response" in data` return `str(data["response"]).strip()`;
otherwise raise `RuntimeError("Unexpected Ollama response schema")`.
Any `TypeError`/`AttributeError`/`KeyError` raised by those expressions
propagates unhandled. -/
def extract (data : Json) : Except BridgeErr String :=
  match pyContains "message" data with
  | .error e => .error (.pyError e)
  | .ok b1 =>
    match (if b1 then
             match pyIndex data "message" with
             | .error e => .error (.pyError e)
             | .ok msg =>
               match pyContains "content" msg with
               | .error e => .error (.pyError e)
               | .ok b2 =>
                 if b2 then
                   match pyIndex msg "content" with
                   | .error e => .error (.pyError e)
                   | .ok c =>
                     match pyStrip c with
                     | .error e => .error (.pyError e)
                     | .ok s => .ok (some s)
                 else .ok none
           else (.ok none : Except BridgeErr (Option String))) with
    | .error e => .error e
    | .ok (some s) => .ok s
    | .ok none =>
      match pyContains "response" data with
      | .error e => .error (.pyError e)
      | .ok true =>
        match pyIndex data "response" with
        | .error e => .error (.pyError e)
        | .ok v => .ok (strip (pyStr v))
      | .ok false => .error .schema

/-- chatbot.py lines 25-55.  `net` is the network: it maps the issued
request to its outcome.  Besides the result, the translation returns the
list of requests issued (always exactly the one composed request — the
source has no retry) and the `messages` list as it stands after the call
(the source never assigns to or mutates `messages`, so the state is
passed through unchanged). -/
def chat_completion_ollama (model : String) (messages : List Message)
    (temperature : Rat) (max_tokens : Int) (base_url : String)
    (net : HttpRequest → HttpOutcome) :
    Except BridgeErr String × List HttpRequest × List Message :=
  let url := base_url ++ "/api/chat"
  let payload : ChatPayload :=
    { model := model
      messages := messages
      stream := false
      options := { temperature := temperature, num_predict := max_tokens } }
  let req : HttpRequest := { url := url, payload := payload, timeout := 120 }
  let result :=
    match net req with
    | .exn cause => .error (.transport ("Ollama request failed: " ++ cause))
    | .response status body =>
      match raise_for_status status with
      | some cause => .error (.transport ("Ollama request failed: " ++ cause))
      | none => extract body
  (result, [req], messages)

/-- The fixed persona text, chatbot.py lines 15-23. -/
def SYSTEM_PROMPT : String :=
  "You are TeachMeFinance, a *financial education* assistant.\n" ++
  "Your goals:\n" ++
  "- Explain personal-finance concepts clearly (budgeting, saving, emergency funds, diversification, index funds, retirement accounts, risk tolerance).\n" ++
  "- Be concise, structured, and beginner-friendly; use examples or rules of thumb where helpful.\n" ++
  "- You are **not** a financial advisor; avoid personalized investment advice or fiduciary recommendations.\n" ++
  "- If the user asks for individualized advice, provide general education and suggest consulting a licensed professional for personal recommendations.\n" ++
  "- Avoid giving tax/legal advice; you may explain general concepts with disclaimers.\n" ++
  "- When math is needed, show steps briefly and state assumptions.\n"

/-- Console output events of the session driver: an error rendered in
red, an answer rendered in a panel (interactive mode), or a plain
printed answer (single-shot mode). -/
inductive Out where
  | errorOut (e : BridgeErr) : Out
  | panelOut (answer : String) : Out
  | printOut (answer : String) : Out
deriving DecidableEq, Repr

/-- Result of one iteration of the interactive loop. -/
structure StepOut where
  ended : Bool
  history : List Message
  calls : List HttpRequest
  outputs : List Out
deriving DecidableEq, Repr

/-- One iteration of the `while True` loop of `chat`, chatbot.py lines
71-82, on the current `history` and the raw string read from the
prompt. -/
def chatStep (model : String) (temperature : Rat) (max_tokens : Int)
    (base_url : String) (net : HttpRequest → HttpOutcome)
    (history : List Message) (rawInput : String) : StepOut :=
  let q := strip rawInput
  if lower q = "exit" ∨ lower q = "quit" then
    { ended := true, history := history, calls := [], outputs := [] }
  else
    let history1 := history ++ [{ role := "user", content := q }]
    let out := chat_completion_ollama model history1 temperature max_tokens base_url net
    match out.1 with
    | .error e =>
      { ended := false, history := out.2.2, calls := out.2.1,
        outputs := [.errorOut e] }
    | .ok answer =>
      { ended := false,
        history := out.2.2 ++ [{ role := "assistant", content := answer }],
        calls := out.2.1, outputs := [.panelOut answer] }

/-- Result of a whole interactive session run. -/
structure RunOut where
  ended : Bool
  history : List Message
  calls : List HttpRequest
  outputs : List Out
deriving DecidableEq, Repr

/-- The interactive loop driven by a list of prompt inputs; it stops at
the first terminal input (modeling `break`) or when the supplied inputs
are exhausted (still awaiting input). -/
def runChatAux (model : String) (temperature : Rat) (max_tokens : Int)
    (base_url : String) (net : HttpRequest → HttpOutcome)
    (history : List Message) : List String → RunOut
  | [] => { ended := false, history := history, calls := [], outputs := [] }
  | i :: rest =>
    let s := chatStep model temperature max_tokens base_url net history i
    if s.ended then
      { ended := true, history := s.history, calls := s.calls, outputs := s.outputs }
    else
      let r := runChatAux model temperature max_tokens base_url net s.history rest
      { ended := r.ended, history := r.history, calls := s.calls ++ r.calls,
        outputs := s.outputs ++ r.outputs }

/-- The `chat` command, chatbot.py lines 61-82: seeds the history with
the single system message (line 70) and runs the loop. -/
def chat (model : String) (temperature : Rat) (max_tokens : Int)
    (base_url : String) (net : HttpRequest → HttpOutcome)
    (inputs : List String) : RunOut :=
  runChatAux model temperature max_tokens base_url net
    [{ role := "system", content := SYSTEM_PROMPT }] inputs

/-- Result of the single-shot command: requests issued, console output,
process exit code. -/
structure AskOut where
  calls : List HttpRequest
  outputs : List Out
  exitCode : Nat
deriving DecidableEq, Repr

/-- The `ask` command, chatbot.py lines 84-102: a two-element message
list (system, user question — the question is not trimmed), one bridge
call, print the answer and exit 0, or print the error and exit 1 via
`typer.Exit(code=1)`. -/
def ask (question : String) (model : String) (temperature : Rat)
    (max_tokens : Int) (base_url : String)
    (net : HttpRequest → HttpOutcome) : AskOut :=
  let messages : List Message :=
    [{ role := "system", content := SYSTEM_PROMPT },
     { role := "user", content := question }]
  let out := chat_completion_ollama model messages temperature max_tokens base_url net
  match out.1 with
  | .error e => { calls := out.2.1, outputs := [.errorOut e], exitCode := 1 }
  | .ok answer => { calls := out.2.1, outputs := [.printOut answer], exitCode := 0 }

/-! ### Helper definitions and lemmas -/

/-- The one request `chat_completion_ollama` composes and issues. -/
def mkRequest (model : String) (messages : List Message) (temperature : Rat)
    (max_tokens : Int) (base_url : String) : HttpRequest :=
  { url := base_url ++ "/api/chat",
    payload := { model := model, messages := messages, stream := false,
                 options := { temperature := temperature,
                              num_predict := max_tokens } },
    timeout := 120 }

/-- Number of system-role messages in a transcript. -/
def countSystem (h : List Message) : Nat :=
  (h.filter (fun m => m.role == "system")).length

lemma chat_completion_eq (model : String) (msgs : List Message) (t : Rat)
    (mt : Int) (u : String) (net : HttpRequest → HttpOutcome) :
    chat_completion_ollama model msgs t mt u net
      = ((chat_completion_ollama model msgs t mt u net).1,
         [mkRequest model msgs t mt u], msgs) := by
  simp only [chat_completion_ollama, mkRequest]

lemma lookup_any_eq_true {β : Type} {fields : List (String × β)} {k : String}
    {v : β} (h : fields.lookup k = some v) :
    (fields.any fun p => p.1 == k) = true := by
  induction fields with
  | nil => simp [List.lookup] at h
  | cons p rest ih =>
    obtain ⟨k1, v1⟩ := p
    simp only [List.lookup, List.any_cons] at h ⊢
    by_cases hk : k == k1
    · simp only [beq_iff_eq] at hk
      simp [hk]
    · simp only [hk] at h
      simp [ih h]

lemma lookup_none_any_eq_false {β : Type} {fields : List (String × β)}
    {k : String} (h : fields.lookup k = none) :
    (fields.any fun p => p.1 == k) = false := by
  induction fields with
  | nil => simp
  | cons p rest ih =>
    obtain ⟨k1, v1⟩ := p
    simp only [List.lookup, List.any_cons] at h ⊢
    by_cases hk : k == k1
    · simp [hk] at h
    · simp only [hk] at h
      simp only [beq_iff_eq] at hk
      have hk1 : ¬(k1 = k) := fun hh => hk hh.symm
      simp [hk1, ih h]

/-- The status codes `raise_for_status` passes through include all 2xx. -/
lemma raise_none_of_2xx {status : Nat} (h1 : 200 ≤ status)
    (h2 : status < 300) : raise_for_status status = none := by
  simp only [raise_for_status, ite_eq_right_iff]
  omega

lemma bridge_result_of_response (model : String) (msgs : List Message)
    (t : Rat) (mt : Int) (u : String) (status : Nat) (body : Json)
    (h : raise_for_status status = none) :
    (chat_completion_ollama model msgs t mt u
      (fun _ => .response status body)).1 = extract body := by
  simp [chat_completion_ollama, h]

/-- The "message"-shape check failing in the clean Boolean sense: no
`"message"` key at all, or its value an object without a `"content"`
key.  (Only then does the source fall through to the `"response"`
branch; other unrecognized `"message"` values derail the membership
test.) -/
def msgShapeAbsent (fields : List (String × Json)) : Prop :=
  fields.lookup "message" = none ∨
  ∃ m, fields.lookup "message" = some (.obj m) ∧ m.lookup "content" = none

lemma extract_msg_content {fields m : List (String × Json)} {s : String}
    (h1 : fields.lookup "message" = some (.obj m))
    (h2 : m.lookup "content" = some (.str s)) :
    extract (.obj fields) = .ok (strip s) := by
  simp [extract, pyContains, pyIndex, pyStrip, h1, h2,
        lookup_any_eq_true h1, lookup_any_eq_true h2]

lemma extract_msg_content_nonstring {fields m : List (String × Json)}
    {v : Json} (h1 : fields.lookup "message" = some (.obj m))
    (h2 : m.lookup "content" = some v) (h3 : ∀ s, v ≠ .str s) :
    extract (.obj fields)
      = .error (.pyError (.attributeError (pyTypeName v))) := by
  cases v with
  | str s => exact absurd rfl (h3 s)
  | null =>
    simp [extract, pyContains, pyIndex, pyStrip, h1, h2,
          lookup_any_eq_true h1, lookup_any_eq_true h2]
  | bool b =>
    simp [extract, pyContains, pyIndex, pyStrip, h1, h2,
          lookup_any_eq_true h1, lookup_any_eq_true h2]
  | num n =>
    simp [extract, pyContains, pyIndex, pyStrip, h1, h2,
          lookup_any_eq_true h1, lookup_any_eq_true h2]
  | arr elems =>
    simp [extract, pyContains, pyIndex, pyStrip, h1, h2,
          lookup_any_eq_true h1, lookup_any_eq_true h2]
  | obj fs =>
    simp [extract, pyContains, pyIndex, pyStrip, h1, h2,
          lookup_any_eq_true h1, lookup_any_eq_true h2]

lemma extract_fallback {fields : List (String × Json)} {v : Json}
    (h1 : msgShapeAbsent fields)
    (h2 : fields.lookup "response" = some v) :
    extract (.obj fields) = .ok (strip (pyStr v)) := by
  rcases h1 with h1 | ⟨m, hm, hc⟩
  · simp [extract, pyContains, pyIndex, h2, lookup_none_any_eq_false h1,
          lookup_any_eq_true h2]
  · simp [extract, pyContains, pyIndex, hm, h2, lookup_any_eq_true hm,
          lookup_none_any_eq_false hc, lookup_any_eq_true h2]

lemma extract_schema {fields : List (String × Json)}
    (h1 : msgShapeAbsent fields) (h2 : fields.lookup "response" = none) :
    extract (.obj fields) = .error .schema := by
  rcases h1 with h1 | ⟨m, hm, hc⟩
  · simp [extract, pyContains, pyIndex, lookup_none_any_eq_false h1,
          lookup_none_any_eq_false h2]
  · simp [extract, pyContains, pyIndex, hm, lookup_any_eq_true hm,
          lookup_none_any_eq_false hc, lookup_none_any_eq_false h2]

lemma bridge_calls_eq (model : String) (msgs : List Message) (t : Rat)
    (mt : Int) (u : String) (net : HttpRequest → HttpOutcome) :
    (chat_completion_ollama model msgs t mt u net).2.1
      = [mkRequest model msgs t mt u] := rfl

lemma bridge_state_eq (model : String) (msgs : List Message) (t : Rat)
    (mt : Int) (u : String) (net : HttpRequest → HttpOutcome) :
    (chat_completion_ollama model msgs t mt u net).2.2 = msgs := rfl

lemma chatStep_terminal {model : String} {t : Rat} {mt : Int} {u : String}
    {net : HttpRequest → HttpOutcome} {history : List Message} {raw : String}
    (h : lower (strip raw) = "exit" ∨ lower (strip raw) = "quit") :
    chatStep model t mt u net history raw
      = { ended := true, history := history, calls := [], outputs := [] } := by
  simp [chatStep, h]

lemma chatStep_fail {model : String} {t : Rat} {mt : Int} {u : String}
    {net : HttpRequest → HttpOutcome} {history : List Message} {raw : String}
    {e : BridgeErr}
    (h : ¬(lower (strip raw) = "exit" ∨ lower (strip raw) = "quit"))
    (hfail : (chat_completion_ollama model
        (history ++ [{ role := "user", content := strip raw }])
        t mt u net).1 = .error e) :
    chatStep model t mt u net history raw
      = { ended := false,
          history := history ++ [{ role := "user", content := strip raw }],
          calls := [mkRequest model
            (history ++ [{ role := "user", content := strip raw }]) t mt u],
          outputs := [.errorOut e] } := by
  simp [chatStep, h, hfail, bridge_calls_eq, bridge_state_eq]

lemma chatStep_ok {model : String} {t : Rat} {mt : Int} {u : String}
    {net : HttpRequest → HttpOutcome} {history : List Message} {raw : String}
    {answer : String}
    (h : ¬(lower (strip raw) = "exit" ∨ lower (strip raw) = "quit"))
    (hok : (chat_completion_ollama model
        (history ++ [{ role := "user", content := strip raw }])
        t mt u net).1 = .ok answer) :
    chatStep model t mt u net history raw
      = { ended := false,
          history := history ++ [{ role := "user", content := strip raw },
                                 { role := "assistant", content := answer }],
          calls := [mkRequest model
            (history ++ [{ role := "user", content := strip raw }]) t mt u],
          outputs := [.panelOut answer] } := by
  simp [chatStep, h, hok, bridge_calls_eq, bridge_state_eq]

lemma countSystem_append (a b : List Message) :
    countSystem (a ++ b) = countSystem a + countSystem b := by
  simp [countSystem, List.filter_append]

lemma chatStep_suffix (model : String) (t : Rat) (mt : Int) (u : String)
    (net : HttpRequest → HttpOutcome) (history : List Message)
    (raw : String) :
    ∃ suffix, (chatStep model t mt u net history raw).history
        = history ++ suffix ∧ countSystem suffix = 0 := by
  by_cases h : lower (strip raw) = "exit" ∨ lower (strip raw) = "quit"
  · exact ⟨[], by simp [chatStep_terminal h, countSystem]⟩
  · rcases hres : (chat_completion_ollama model
        (history ++ [{ role := "user", content := strip raw }])
        t mt u net).1 with e | answer
    · exact ⟨[{ role := "user", content := strip raw }],
        by simp [chatStep_fail h hres, countSystem]⟩
    · exact ⟨[{ role := "user", content := strip raw },
              { role := "assistant", content := answer }],
        by simp [chatStep_ok h hres, countSystem]⟩

lemma runChatAux_suffix (model : String) (t : Rat) (mt : Int) (u : String)
    (net : HttpRequest → HttpOutcome) (inputs : List String) :
    ∀ history, ∃ suffix,
      (runChatAux model t mt u net history inputs).history
          = history ++ suffix ∧ countSystem suffix = 0 := by
  induction inputs with
  | nil => exact fun history => ⟨[], by simp [runChatAux, countSystem]⟩
  | cons i rest ih =>
    intro history
    obtain ⟨suf1, hs1, hc1⟩ :=
      chatStep_suffix model t mt u net history i
    by_cases hend : (chatStep model t mt u net history i).ended
    · exact ⟨suf1, by simp [runChatAux, hend, hs1, hc1]⟩
    · obtain ⟨suf2, hs2, hc2⟩ :=
        ih (chatStep model t mt u net history i).history
      refine ⟨suf1 ++ suf2, ?_, ?_⟩
      · rw [hs1] at hs2
        simp [runChatAux, hend, hs1, hs2]
      · simp [countSystem_append, hc1, hc2]

lemma ask_fail {question model : String} {t : Rat} {mt : Int} {u : String}
    {net : HttpRequest → HttpOutcome} {e : BridgeErr}
    (h : (chat_completion_ollama model
        [{ role := "system", content := SYSTEM_PROMPT },
         { role := "user", content := question }] t mt u net).1 = .error e) :
    ask question model t mt u net
      = { calls := [mkRequest model
            [{ role := "system", content := SYSTEM_PROMPT },
             { role := "user", content := question }] t mt u],
          outputs := [.errorOut e], exitCode := 1 } := by
  simp [ask, h, bridge_calls_eq]

lemma ask_ok {question model : String} {t : Rat} {mt : Int} {u : String}
    {net : HttpRequest → HttpOutcome} {answer : String}
    (h : (chat_completion_ollama model
        [{ role := "system", content := SYSTEM_PROMPT },
         { role := "user", content := question }] t mt u net).1 = .ok answer) :
    ask question model t mt u net
      = { calls := [mkRequest model
            [{ role := "system", content := SYSTEM_PROMPT },
             { role := "user", content := question }] t mt u],
          outputs := [.printOut answer], exitCode := 0 } := by
  simp [ask, h, bridge_calls_eq]

lemma ask_calls_eq (question model : String) (t : Rat) (mt : Int)
    (u : String) (net : HttpRequest → HttpOutcome) :
    (ask question model t mt u net).calls
      = [mkRequest model
          [{ role := "system", content := SYSTEM_PROMPT },
           { role := "user", content := question }] t mt u] := by
  rcases h : (chat_completion_ollama model
      [{ role := "system", content := SYSTEM_PROMPT },
       { role := "user", content := question }] t mt u net).1 with e | answer
  · rw [ask_fail h]
  · rw [ask_ok h]

/-! ### Claim theorems -/

/-- C1 (amended): for a successful (2xx) response whose JSON body is an
object, extraction proceeds in priority order: a `"message"` field
holding an object with a string `"content"` sub-field wins — also over a
simultaneously present `"response"` field — and its value is returned
trimmed; when the message shape is cleanly absent (no `"message"` key,
or its value an object without a `"content"` key), a present top-level
`"response"` field is returned via its string form, trimmed; when that
too is absent the call fails (with the schema error).  As originally
stated the claim is false: when the `"message"` value is a non-container
(e.g. a number), the code raises an unhandled TypeError instead of
falling through to `"response"` — see the counterexample. -/
theorem C1_extraction_policy (model : String) (msgs : List Message)
    (t : Rat) (mt : Int) (u : String) (status : Nat)
    (fields : List (String × Json))
    (hst : 200 ≤ status ∧ status < 300) :
    (∀ m s, fields.lookup "message" = some (.obj m) →
      m.lookup "content" = some (.str s) →
      (chat_completion_ollama model msgs t mt u
        (fun _ => .response status (.obj fields))).1 = .ok (strip s)) ∧
    (∀ v, msgShapeAbsent fields → fields.lookup "response" = some v →
      (chat_completion_ollama model msgs t mt u
        (fun _ => .response status (.obj fields))).1
        = .ok (strip (pyStr v))) ∧
    (msgShapeAbsent fields → fields.lookup "response" = none →
      (chat_completion_ollama model msgs t mt u
        (fun _ => .response status (.obj fields))).1 = .error .schema) := by
  have hb := bridge_result_of_response model msgs t mt u status (.obj fields)
    (raise_none_of_2xx hst.1 hst.2)
  exact ⟨fun m s h1 h2 => by rw [hb, extract_msg_content h1 h2],
         fun v h1 h2 => by rw [hb, extract_fallback h1 h2],
         fun h1 h2 => by rw [hb, extract_schema h1 h2]⟩

/-- C1 counterexample: on the 200-status body
`\x7b"message": 5, "response": "y"\x7d` the claim as stated demands the
fallback result `"y"`, but the code raises `TypeError` (from
`"content" in data["message"]` with a non-iterable) and never reaches
the `"response"` branch. -/
theorem C1_counterexample :
    (chat_completion_ollama "m" [] 1 512 "u"
      (fun _ => .response 200
        (.obj [("message", .num 5), ("response", .str "y")]))).1
      = .error (.pyError (.typeError "int")) ∧
    (Except.error (.pyError (.typeError "int")) : Except BridgeErr String)
      ≠ .ok "y" :=
  ⟨rfl, fun h => nomatch h⟩

/-- C1 witness: the amended policy evaluated on the three concrete
shapes (message-wins-over-response, response fallback, neither). -/
theorem C1_witness :
    (chat_completion_ollama "m" [] 1 512 "u"
      (fun _ => .response 200
        (.obj [("message", .obj [("content", .str "  X  ")]),
               ("response", .str "ignored")]))).1 = .ok "X" ∧
    (chat_completion_ollama "m" [] 1 512 "u"
      (fun _ => .response 201 (.obj [("response", .str " Y ")]))).1
      = .ok "Y" ∧
    (chat_completion_ollama "m" [] 1 512 "u"
      (fun _ => .response 200 (.obj [("foo", .str "bar")]))).1
      = .error .schema := by
  refine ⟨?_, ?_, ?_⟩
  · have h := (C1_extraction_policy "m" [] 1 512 "u" 200
      [("message", .obj [("content", .str "  X  ")]),
       ("response", .str "ignored")] (by decide)).1
      [("content", .str "  X  ")] "  X  " rfl rfl
    rw [h]
    rfl
  · have h := (C1_extraction_policy "m" [] 1 512 "u" 201
      [("response", .str " Y ")] (by decide)).2.1
      (.str " Y ") (Or.inl rfl) rfl
    rw [h]
    rfl
  · have h := (C1_extraction_policy "m" [] 1 512 "u" 200
      [("foo", .str "bar")] (by decide)).2.2 (Or.inl rfl) rfl
    rw [h]

/-- C2 (amended): the bridge fails with a `TransportError` carrying the
underlying cause for any in-flight `RequestException` (connection error,
timeout) and for any 4xx/5xx status (3xx statuses do not raise); it
fails with the `SchemaError` on a non-raising response whose body makes
both membership tests evaluate cleanly to false (e.g. an object with
neither a `"message"` nor a `"response"` key); the two kinds are
distinct values.  As originally stated the claim is false on two
counts: a non-2xx 3xx status yields no error at all, and a body that
defeats the membership test (e.g. the number `5`) raises an unhandled
TypeError — a third error kind — instead of `SchemaError`. -/
theorem C2_error_kinds (model : String) (msgs : List Message) (t : Rat)
    (mt : Int) (u : String) :
    (∀ cause, (chat_completion_ollama model msgs t mt u
        (fun _ => .exn cause)).1
      = .error (.transport ("Ollama request failed: " ++ cause))) ∧
    (∀ status body, 400 ≤ status → status < 600 →
      (chat_completion_ollama model msgs t mt u
        (fun _ => .response status body)).1
      = .error (.transport ("Ollama request failed: "
          ++ ("HTTP error " ++ toString status)))) ∧
    (∀ status body, raise_for_status status = none →
      pyContains "message" body = .ok false →
      pyContains "response" body = .ok false →
      (chat_completion_ollama model msgs t mt u
        (fun _ => .response status body)).1 = .error .schema) ∧
    (∀ cause, BridgeErr.transport cause ≠ .schema) := by
  refine ⟨?_, ?_, ?_, ?_⟩
  · intro cause
    simp [chat_completion_ollama]
  · intro status body h1 h2
    have hr : raise_for_status status
        = some ("HTTP error " ++ toString status) := by
      unfold raise_for_status
      rw [if_pos ⟨h1, h2⟩]
    simp [chat_completion_ollama, hr]
  · intro status body h1 h2 h3
    rw [bridge_result_of_response model msgs t mt u status body h1]
    simp [extract, h2, h3]
  · intro cause h
    exact BridgeErr.noConfusion h

/-- C2 counterexample: a 200-status body `5` matches neither shape yet
produces an unhandled `TypeError`, not the schema `RuntimeError`; and a
304 (non-2xx) response with a well-formed body succeeds instead of
failing with a transport error. -/
theorem C2_counterexample :
    (chat_completion_ollama "m" [] 1 512 "u"
      (fun _ => .response 200 (.num 5))).1
      = .error (.pyError (.typeError "int")) ∧
    BridgeErr.pyError (.typeError "int") ≠ .schema ∧
    (chat_completion_ollama "m" [] 1 512 "u"
      (fun _ => .response 304
        (.obj [("message", .obj [("content", .str "hi")])]))).1
      = .ok "hi" :=
  ⟨rfl, fun h => BridgeErr.noConfusion h, rfl⟩

/-- C2 witness: the amended error classification evaluated on a
connection failure, a 404 response, and an unrecognized object body. -/
theorem C2_witness :
    (chat_completion_ollama "m" [] 1 512 "u" (fun _ => .exn "boom")).1
      = .error (.transport "Ollama request failed: boom") ∧
    (chat_completion_ollama "m" [] 1 512 "u"
      (fun _ => .response 404 (.obj []))).1
      = .error (.transport "Ollama request failed: HTTP error 404") ∧
    (chat_completion_ollama "m" [] 1 512 "u"
      (fun _ => .response 200 (.obj [("foo", .str "bar")]))).1
      = .error .schema ∧
    BridgeErr.transport "x" ≠ .schema := by
  obtain ⟨h1, h2, h3, h4⟩ := C2_error_kinds "m" [] 1 512 "u"
  refine ⟨h1 "boom", ?_, ?_, h4 "x"⟩
  · rw [h2 404 (.obj []) (by decide) (by decide)]
    rfl
  · rw [h3 200 (.obj [("foo", .str "bar")]) rfl rfl rfl]

/-- C7: on every invocation the bridge issues exactly one request — the
POST to `base_url ++ "/api/chat"` with timeout 120 and the JSON body
`\x7bmodel, messages, stream: false, options: \x7btemperature,
num_predict\x7d\x7d` — with temperature and max_tokens forwarded
unconditionally as given, and it issues no other request regardless of
the outcome (no retry). -/
theorem C7_request_composition (model : String) (msgs : List Message)
    (t : Rat) (mt : Int) (u : String) (net : HttpRequest → HttpOutcome) :
    (chat_completion_ollama model msgs t mt u net).2.1
      = [{ url := u ++ "/api/chat",
           payload := { model := model, messages := msgs, stream := false,
                        options := { temperature := t,
                                     num_predict := mt } },
           timeout := 120 }] := rfl

/-- C8: the messages list after a bridge call — whatever the outcome —
is the messages list passed in: the translation of the source threads
the list through unchanged because no statement of
`chat_completion_ollama` assigns to or mutates it. -/
theorem C8_no_transcript_mutation (model : String) (msgs : List Message)
    (t : Rat) (mt : Int) (u : String) (net : HttpRequest → HttpOutcome) :
    (chat_completion_ollama model msgs t mt u net).2.2 = msgs := rfl

/-- C3: on a failed bridge call in interactive mode the error is
rendered, no assistant message is appended — the user message holding
the question stays the last transcript entry — and the loop continues
(not ended); the next non-terminal input is appended directly after the
unanswered question. -/
theorem C3_failure_keeps_question (model : String) (t : Rat) (mt : Int)
    (u : String) (net : HttpRequest → HttpOutcome) (history : List Message)
    (raw : String) (e : BridgeErr)
    (hterm : ¬(lower (strip raw) = "exit" ∨ lower (strip raw) = "quit"))
    (hfail : (chat_completion_ollama model
        (history ++ [{ role := "user", content := strip raw }])
        t mt u net).1 = .error e) :
    (chatStep model t mt u net history raw).ended = false ∧
    (chatStep model t mt u net history raw).outputs = [.errorOut e] ∧
    (chatStep model t mt u net history raw).history
      = history ++ [{ role := "user", content := strip raw }] ∧
    (chatStep model t mt u net history raw).history.getLast?
      = some { role := "user", content := strip raw } ∧
    (∀ raw2, ¬(lower (strip raw2) = "exit" ∨ lower (strip raw2) = "quit") →
      ∃ rest, (chatStep model t mt u net
          (chatStep model t mt u net history raw).history raw2).history
        = (history ++ [{ role := "user", content := strip raw }])
          ++ ({ role := "user", content := strip raw2 } :: rest)) := by
  rw [chatStep_fail hterm hfail]
  refine ⟨rfl, rfl, rfl, List.getLast?_concat _, ?_⟩
  intro raw2 hterm2
  rcases hres : (chat_completion_ollama model
      ((history ++ [{ role := "user", content := strip raw }])
        ++ [{ role := "user", content := strip raw2 }]) t mt u net).1
    with e2 | ans
  · exact ⟨[], by rw [chatStep_fail hterm2 hres]⟩
  · exact ⟨[{ role := "assistant", content := ans }],
      by rw [chatStep_ok hterm2 hres]⟩

/-- C3 witness: one failed exchange on the seeded transcript. -/
theorem C3_witness :
    (chatStep "m" 1 512 "u" (fun _ => .exn "boom")
      [{ role := "system", content := SYSTEM_PROMPT }] "hello").ended
      = false ∧
    (chatStep "m" 1 512 "u" (fun _ => .exn "boom")
      [{ role := "system", content := SYSTEM_PROMPT }] "hello").outputs
      = [.errorOut (.transport "Ollama request failed: boom")] ∧
    (chatStep "m" 1 512 "u" (fun _ => .exn "boom")
      [{ role := "system", content := SYSTEM_PROMPT }] "hello").history
      = [{ role := "system", content := SYSTEM_PROMPT },
         { role := "user", content := "hello" }] ∧
    (chatStep "m" 1 512 "u" (fun _ => .exn "boom")
      [{ role := "system", content := SYSTEM_PROMPT }] "hello").history.getLast?
      = some { role := "user", content := "hello" } := by
  obtain ⟨h1, h2, h3, h4, -⟩ := C3_failure_keeps_question "m" 1 512 "u"
    (fun _ => .exn "boom") [{ role := "system", content := SYSTEM_PROMPT }]
    "hello" (.transport "Ollama request failed: boom") (by decide) rfl
  exact ⟨h1, h2, h3, h4⟩

/-- C4: a trimmed input whose lowercase form is "exit" or "quit" ends
the session with no bridge call (also at the whole-loop level: the
remaining inputs are never processed); any other input issues exactly
one bridge call whose message list is the transcript with the trimmed
input appended as a user message — i.e. the append happens before the
call. -/
theorem C4_terminal_inputs (model : String) (t : Rat) (mt : Int)
    (u : String) (net : HttpRequest → HttpOutcome) (history : List Message)
    (raw : String) :
    ((lower (strip raw) = "exit" ∨ lower (strip raw) = "quit") →
      chatStep model t mt u net history raw
        = { ended := true, history := history, calls := [], outputs := [] }) ∧
    ((lower (strip raw) = "exit" ∨ lower (strip raw) = "quit") →
      ∀ rest, runChatAux model t mt u net history (raw :: rest)
        = { ended := true, history := history, calls := [],
            outputs := [] }) ∧
    (¬(lower (strip raw) = "exit" ∨ lower (strip raw) = "quit") →
      (chatStep model t mt u net history raw).calls
        = [mkRequest model
            (history ++ [{ role := "user", content := strip raw }])
            t mt u]) := by
  refine ⟨fun h => chatStep_terminal h, fun h rest => ?_, fun h => ?_⟩
  · simp [runChatAux, chatStep_terminal h]
  · rcases hres : (chat_completion_ollama model
        (history ++ [{ role := "user", content := strip raw }]) t mt u net).1
      with e | ans
    · rw [chatStep_fail h hres]
    · rw [chatStep_ok h hres]

/-- C4 witness: " EXIT " ends the session without a call (also with
further inputs pending), while "hi" issues exactly the one composed
call. -/
theorem C4_witness :
    chatStep "m" 1 512 "u" (fun _ => .exn "b")
      [{ role := "system", content := SYSTEM_PROMPT }] " EXIT "
      = { ended := true,
          history := [{ role := "system", content := SYSTEM_PROMPT }],
          calls := [], outputs := [] } ∧
    runChatAux "m" 1 512 "u" (fun _ => .exn "b")
      [{ role := "system", content := SYSTEM_PROMPT }] [" EXIT ", "later"]
      = { ended := true,
          history := [{ role := "system", content := SYSTEM_PROMPT }],
          calls := [], outputs := [] } ∧
    (chatStep "m" 1 512 "u" (fun _ => .exn "b")
      [{ role := "system", content := SYSTEM_PROMPT }] "hi").calls
      = [mkRequest "m"
          [{ role := "system", content := SYSTEM_PROMPT },
           { role := "user", content := "hi" }] 1 512 "u"] := by
  obtain ⟨h1, h2, -⟩ := C4_terminal_inputs "m" 1 512 "u" (fun _ => .exn "b")
    [{ role := "system", content := SYSTEM_PROMPT }] " EXIT "
  obtain ⟨-, -, h3⟩ := C4_terminal_inputs "m" 1 512 "u" (fun _ => .exn "b")
    [{ role := "system", content := SYSTEM_PROMPT }] "hi"
  exact ⟨h1 (by decide), h2 (by decide) ["later"], h3 (by decide)⟩

/-- C5: in interactive mode the transcript always starts with the single
system message containing the persona text and holds exactly one
system-role entry, whatever the inputs and outcomes; in single-shot mode
the message list of the one issued request likewise has the system
message first and exactly once. -/
theorem C5_system_message_invariant (model : String) (t : Rat) (mt : Int)
    (u : String) (net : HttpRequest → HttpOutcome) (inputs : List String)
    (question : String) :
    (chat model t mt u net inputs).history.head?
        = some { role := "system", content := SYSTEM_PROMPT } ∧
    countSystem (chat model t mt u net inputs).history = 1 ∧
    ∀ r ∈ (ask question model t mt u net).calls,
      r.payload.messages.head?
          = some { role := "system", content := SYSTEM_PROMPT } ∧
      countSystem r.payload.messages = 1 := by
  obtain ⟨suffix, hs, hc⟩ := runChatAux_suffix model t mt u net inputs
    [{ role := "system", content := SYSTEM_PROMPT }]
  refine ⟨?_, ?_, ?_⟩
  · simp only [chat]
    rw [hs]
    rfl
  · simp only [chat]
    rw [hs, countSystem_append, hc]
    rfl
  · intro r hr
    rw [ask_calls_eq, List.mem_singleton] at hr
    subst hr
    exact ⟨rfl, rfl⟩

/-- C5 witness: the invariant evaluated on a one-input failed session
and on the single-shot request. -/
theorem C5_witness :
    (chat "m" 1 512 "u" (fun _ => .exn "b") ["hi"]).history.head?
      = some { role := "system", content := SYSTEM_PROMPT } ∧
    countSystem (chat "m" 1 512 "u" (fun _ => .exn "b") ["hi"]).history
      = 1 ∧
    (mkRequest "m"
      [{ role := "system", content := SYSTEM_PROMPT },
       { role := "user", content := "q" }] 1 512 "u").payload.messages.head?
      = some { role := "system", content := SYSTEM_PROMPT } ∧
    countSystem (mkRequest "m"
      [{ role := "system", content := SYSTEM_PROMPT },
       { role := "user", content := "q" }] 1 512 "u").payload.messages
      = 1 := by
  obtain ⟨h1, h2, h3⟩ := C5_system_message_invariant "m" 1 512 "u"
    (fun _ => .exn "b") ["hi"] "q"
  obtain ⟨h4, h5⟩ := h3 (mkRequest "m"
    [{ role := "system", content := SYSTEM_PROMPT },
     { role := "user", content := "q" }] 1 512 "u")
    (by simp [ask_calls_eq])
  exact ⟨h1, h2, h4, h5⟩

/-- C6: the single-shot command issues exactly one request, whose
message list is the two-element system-then-user transcript built from
the question; on bridge success it prints the answer and exits 0, on
bridge failure it prints the error and exits 1 (a non-zero status). -/
theorem C6_single_shot (question model : String) (t : Rat) (mt : Int)
    (u : String) (net : HttpRequest → HttpOutcome) :
    (ask question model t mt u net).calls
      = [mkRequest model
          [{ role := "system", content := SYSTEM_PROMPT },
           { role := "user", content := question }] t mt u] ∧
    (∀ r ∈ (ask question model t mt u net).calls,
      r.payload.messages.length = 2) ∧
    (∀ answer, (chat_completion_ollama model
        [{ role := "system", content := SYSTEM_PROMPT },
         { role := "user", content := question }] t mt u net).1
        = .ok answer →
      (ask question model t mt u net).outputs = [.printOut answer] ∧
      (ask question model t mt u net).exitCode = 0) ∧
    (∀ e, (chat_completion_ollama model
        [{ role := "system", content := SYSTEM_PROMPT },
         { role := "user", content := question }] t mt u net).1
        = .error e →
      (ask question model t mt u net).outputs = [.errorOut e] ∧
      (ask question model t mt u net).exitCode = 1 ∧
      (ask question model t mt u net).exitCode ≠ 0) := by
  refine ⟨ask_calls_eq question model t mt u net, ?_, ?_, ?_⟩
  · intro r hr
    rw [ask_calls_eq, List.mem_singleton] at hr
    subst hr
    rfl
  · intro answer h
    rw [ask_ok h]
    exact ⟨rfl, rfl⟩
  · intro e h
    rw [ask_fail h]
    exact ⟨rfl, rfl, Nat.one_ne_zero⟩

/-- C6 witness: the documented sample question, once against a
well-formed success response and once against a connection failure. -/
theorem C6_witness :
    (ask "What is an index fund?" "m" 1 512 "u"
      (fun _ => .response 200
        (.obj [("message", .obj [("content", .str "A fund")])]))).calls
      = [mkRequest "m"
          [{ role := "system", content := SYSTEM_PROMPT },
           { role := "user", content := "What is an index fund?" }]
          1 512 "u"] ∧
    ((mkRequest "m"
      [{ role := "system", content := SYSTEM_PROMPT },
       { role := "user",
         content := "What is an index fund?" }] 1 512 "u").payload
      ).messages.length = 2 ∧
    (ask "What is an index fund?" "m" 1 512 "u"
      (fun _ => .response 200
        (.obj [("message", .obj [("content", .str "A fund")])]))).exitCode
      = 0 ∧
    (ask "What is an index fund?" "m" 1 512 "u"
      (fun _ => .exn "down")).exitCode = 1 := by
  obtain ⟨ha, hb, hc, -⟩ := C6_single_shot "What is an index fund?" "m"
    1 512 "u" (fun _ => .response 200
      (.obj [("message", .obj [("content", .str "A fund")])]))
  obtain ⟨-, -, -, hd⟩ := C6_single_shot "What is an index fund?" "m"
    1 512 "u" (fun _ => .exn "down")
  refine ⟨ha, ?_, (hc "A fund" rfl).2,
          (hd (.transport "Ollama request failed: down") rfl).2.1⟩
  exact hb (mkRequest "m"
    [{ role := "system", content := SYSTEM_PROMPT },
     { role := "user", content := "What is an index fund?" }] 1 512 "u")
    (by simp [ask_calls_eq])

/-- C9: the extraction assumes a string `"content"`: on a 2xx object
body whose `"message"` object maps `"content"` to a non-string, the
call raises an unhandled `AttributeError` (from `.strip()` on a
non-string) rather than the schema `RuntimeError`; a non-string
top-level `"response"` value, by contrast, goes through `str(...)` and
the call returns normally. -/
theorem C9_content_assumed_string (model : String) (msgs : List Message)
    (t : Rat) (mt : Int) (u : String) (status : Nat)
    (fields : List (String × Json)) (hst : 200 ≤ status ∧ status < 300) :
    (∀ m v, fields.lookup "message" = some (.obj m) →
      m.lookup "content" = some v → (∀ s, v ≠ .str s) →
      (chat_completion_ollama model msgs t mt u
        (fun _ => .response status (.obj fields))).1
        = .error (.pyError (.attributeError (pyTypeName v)))) ∧
    (∀ v, fields.lookup "message" = none →
      fields.lookup "response" = some v →
      (chat_completion_ollama model msgs t mt u
        (fun _ => .response status (.obj fields))).1
        = .ok (strip (pyStr v))) := by
  have hb := bridge_result_of_response model msgs t mt u status (.obj fields)
    (raise_none_of_2xx hst.1 hst.2)
  exact ⟨fun m v h1 h2 h3 => by
           rw [hb, extract_msg_content_nonstring h1 h2 h3],
         fun v h1 h2 => by rw [hb, extract_fallback (Or.inl h1) h2]⟩

/-- C9 witness: content `5` raises the AttributeError; response `5` is
stringified to "5". -/
theorem C9_witness :
    (chat_completion_ollama "m" [] 1 512 "u"
      (fun _ => .response 200
        (.obj [("message", .obj [("content", .num 5)])]))).1
      = .error (.pyError (.attributeError "int")) ∧
    (chat_completion_ollama "m" [] 1 512 "u"
      (fun _ => .response 200 (.obj [("response", .num 5)]))).1
      = .ok "5" := by
  refine ⟨?_, ?_⟩
  · have h := (C9_content_assumed_string "m" [] 1 512 "u" 200
      [("message", .obj [("content", .num 5)])] (by decide)).1
      [("content", .num 5)] (.num 5) rfl rfl (fun s hh => nomatch hh)
    rw [h]
    rfl
  · have h := (C9_content_assumed_string "m" [] 1 512 "u" 200
      [("response", .num 5)] (by decide)).2 (.num 5) rfl rfl
    rw [h]
    simp only [pyStr, pyRepr]
    rfl

/-- C10: in interactive mode the user message appended (and hence the
message list of the issued request) carries the trimmed input, not the
raw input; an input that trims to empty is still non-terminal: the loop
appends an empty-content user message and issues a bridge call. -/
theorem C10_input_trimmed (model : String) (t : Rat) (mt : Int)
    (u : String) (net : HttpRequest → HttpOutcome) (history : List Message)
    (raw : String) :
    (¬(lower (strip raw) = "exit" ∨ lower (strip raw) = "quit") →
      ((chatStep model t mt u net history raw).calls.map
          (fun r => r.payload.messages))
        = [history ++ [{ role := "user", content := strip raw }]]) ∧
    (strip raw = "" →
      (chatStep model t mt u net history raw).ended = false ∧
      (chatStep model t mt u net history raw).calls.length = 1 ∧
      ((chatStep model t mt u net history raw).history.drop
          history.length).head?
        = some { role := "user", content := "" }) := by
  refine ⟨fun h => ?_, fun h => ?_⟩
  · rcases hres : (chat_completion_ollama model
        (history ++ [{ role := "user", content := strip raw }]) t mt u net).1
      with e | ans
    · rw [chatStep_fail h hres]
      rfl
    · rw [chatStep_ok h hres]
      rfl
  · have hterm : ¬(lower (strip raw) = "exit" ∨ lower (strip raw) = "quit") := by
      rw [h]
      decide
    rcases hres : (chat_completion_ollama model
        (history ++ [{ role := "user", content := strip raw }]) t mt u net).1
      with e | ans
    · rw [chatStep_fail hterm hres, h]
      refine ⟨rfl, rfl, ?_⟩
      rw [List.drop_left]
      rfl
    · rw [chatStep_ok hterm hres, h]
      refine ⟨rfl, rfl, ?_⟩
      rw [List.drop_left]
      rfl

/-- C10 witness: input " hi " is sent as "hi"; input "   " (whitespace
only) still triggers a call with an empty user message. -/
theorem C10_witness :
    ((chatStep "m" 1 512 "u" (fun _ => .exn "b")
      [{ role := "system", content := SYSTEM_PROMPT }] " hi ").calls.map
        (fun r => r.payload.messages))
      = [[{ role := "system", content := SYSTEM_PROMPT },
          { role := "user", content := "hi" }]] ∧
    (chatStep "m" 1 512 "u" (fun _ => .exn "b")
      [{ role := "system", content := SYSTEM_PROMPT }] "   ").ended
      = false ∧
    (chatStep "m" 1 512 "u" (fun _ => .exn "b")
      [{ role := "system", content := SYSTEM_PROMPT }] "   ").calls.length
      = 1 ∧
    ((chatStep "m" 1 512 "u" (fun _ => .exn "b")
      [{ role := "system", content := SYSTEM_PROMPT }] "   ").history.drop
        1).head?
      = some { role := "user", content := "" } := by
  obtain ⟨h1, -⟩ := C10_input_trimmed "m" 1 512 "u" (fun _ => .exn "b")
    [{ role := "system", content := SYSTEM_PROMPT }] " hi "
  obtain ⟨-, h2⟩ := C10_input_trimmed "m" 1 512 "u" (fun _ => .exn "b")
    [{ role := "system", content := SYSTEM_PROMPT }] "   "
  obtain ⟨ha, hb, hc⟩ := h2 (by decide)
  exact ⟨h1 (by decide), ha, hb, hc⟩

end TMF
